import Mathlib

/-!
Shallow embedding of the second-brain capture/OCR/retrieval pipeline
(`src/second_brain/...`) and proofs about its specification.

Conventions:
* Python floats on the code paths verified here are modelled by `ℚ`
  (every value compared on these paths is a dyadic rational or an exact
  rational configuration constant, so ordering agrees with the floats).
* Python strings are modelled by `List Char` (sequences of Unicode
  scalar values), bytes by `List ℕ`.
* External collaborators (OS idle probe, screenshot primitive, zlib,
  the vision provider, chroma) appear as explicit parameters carrying
  their interface contract only.
* A Python function that may raise is modelled with `Option`/`PyResult`.
-/

namespace SecondBrain

/-- Outcome of a Python call that either returns normally or raises. -/
inductive PyResult (α : Type) where
  | ok (value : α)
  | exn (message : List Char)
deriving Repr, DecidableEq

/-! ## capture/frame_differ.py -/

/-- State of `FrameDiffer` (capture/frame_differ.py).  The perceptual hash of
an image is a 256-bit vector (`average_hash` with `hash_size=16`); the hash
computation itself is external (PIL/imagehash), so `should_capture_frame`
is embedded as a function of the hash computed for the current image. -/
structure FrameDiffer where
  similarity_threshold : ℚ
  last_hash : Option (List Bool)
  frames_skipped : ℕ
  frames_captured : ℕ
deriving Repr, DecidableEq

/-- `FrameDiffer.__init__`. -/
def FrameDiffer.init (similarity_threshold : ℚ) : FrameDiffer :=
  { similarity_threshold := similarity_threshold
    last_hash := none
    frames_skipped := 0
    frames_captured := 0 }

/-- Hamming distance between two hashes (`ImageHash.__sub__` counts the
positions where the bit vectors differ). -/
def hammingDistance (a b : List Bool) : ℕ :=
  (List.zipWith (fun x y => x != y) a b).count true

/-- `FrameDiffer.should_capture_frame`, given the average-hash computed for
the current image.  Returns the decision together with the updated state.
(The `except` arm of the Python code is reached only when loading/hashing
the image raises; that case is handled by the caller model in
`CaptureService.capture_frame` via an `Option` hash.) -/
def FrameDiffer.should_capture_frame (fd : FrameDiffer) (current_hash : List Bool) :
    Bool × FrameDiffer :=
  match fd.last_hash with
  | none =>
      (true, { fd with last_hash := some current_hash,
                       frames_captured := fd.frames_captured + 1 })
  | some lastHash =>
      let difference : ℕ := hammingDistance current_hash lastHash
      let similarity : ℚ := 1 - (difference : ℚ) / 256
      if fd.similarity_threshold ≤ similarity then
        (false, { fd with frames_skipped := fd.frames_skipped + 1 })
      else
        (true, { fd with last_hash := some current_hash,
                         frames_captured := fd.frames_captured + 1 })

/-! ## capture/activity_monitor.py -/

/-- Configuration of `ActivityMonitor` (capture/activity_monitor.py). -/
structure ActivityMonitor where
  idle_threshold : ℚ
  active_fps : ℚ
  idle_fps : ℚ
deriving Repr, DecidableEq

/-- `ActivityMonitor.get_seconds_since_last_input`: the Quartz idle-time
probe is external; `none` models the probe raising, in which case the
code returns `0.0`. -/
def ActivityMonitor.get_seconds_since_last_input (probe : Option ℚ) : ℚ :=
  match probe with
  | some seconds => seconds
  | none => 0

/-- `ActivityMonitor.is_user_active`. -/
def ActivityMonitor.is_user_active (m : ActivityMonitor) (probe : Option ℚ) : Bool :=
  ActivityMonitor.get_seconds_since_last_input probe < m.idle_threshold

/-- `ActivityMonitor.get_adaptive_fps`. -/
def ActivityMonitor.get_adaptive_fps (m : ActivityMonitor) (probe : Option ℚ) : ℚ :=
  if m.is_user_active probe then m.active_fps else m.idle_fps

/-! ## ocr/openai_ocr.py -/

/-- A Python string, as a sequence of Unicode scalar values. -/
abbrev PyStr := List Char

/-- Code points for which CPython's `str.strip()` (no argument) removes a
character: exactly the code points `c` with `c.isspace()` true. -/
def pythonWhitespaceCodes : List ℕ :=
  [0x09, 0x0A, 0x0B, 0x0C, 0x0D, 0x1C, 0x1D, 0x1E, 0x1F, 0x20, 0x85, 0xA0,
   0x1680, 0x2000, 0x2001, 0x2002, 0x2003, 0x2004, 0x2005, 0x2006, 0x2007,
   0x2008, 0x2009, 0x200A, 0x2028, 0x2029, 0x202F, 0x205F, 0x3000]

/-- Whether `str.strip()` treats the character as whitespace. -/
def isPySpace (c : Char) : Bool :=
  pythonWhitespaceCodes.contains c.toNat

/-- Python `str.strip()`: drop whitespace from both ends. -/
def pyStrip (s : PyStr) : PyStr :=
  ((s.dropWhile isPySpace).reverse.dropWhile isPySpace).reverse

/-- `re.sub(r' +', ' ', text)`: each maximal run of spaces becomes a single
space.  The scan emits one space per run and skips the rest of the run. -/
def collapseSpaces : PyStr → PyStr
  | [] => []
  | c :: rest =>
    if c = ' ' then ' ' :: collapseSpaces (rest.dropWhile (fun d => d = ' '))
    else c :: collapseSpaces rest
termination_by s => s.length
decreasing_by
  all_goals simp only [List.length_cons]
  · exact Nat.lt_succ_of_le (List.dropWhile_sublist _).length_le
  · exact Nat.lt_succ_self _

/-- `re.sub(r'\n\n+', '\n\n', text)`: each maximal run of at least two
newlines becomes exactly two newlines; a lone newline is untouched. -/
def collapseNewlines : PyStr → PyStr
  | [] => []
  | c :: rest =>
    if c = '\n' ∧ rest.head? = some '\n' then
      '\n' :: '\n' :: collapseNewlines (rest.dropWhile (fun d => d = '\n'))
    else c :: collapseNewlines rest
termination_by s => s.length
decreasing_by
  all_goals simp only [List.length_cons]
  · exact Nat.lt_succ_of_le (List.dropWhile_sublist _).length_le
  · exact Nat.lt_succ_self _

/-- `OpenAIOCR._normalize_text`: collapse space runs, collapse newline runs,
then `strip()`. -/
def normalize_text (text : PyStr) : PyStr :=
  pyStrip (collapseNewlines (collapseSpaces text))

/-- Normalization as worded by the spec ("collapse runs of spaces, collapse
3+ blank lines to one blank line, trim"), processing the input one maximal
run of equal characters at a time: a run of spaces becomes one space; a run
of three or more newline characters becomes one blank line (two newlines),
shorter newline runs stay; every other run is kept verbatim. -/
def specCollapseRuns : PyStr → PyStr
  | [] => []
  | c :: rest =>
    let run : ℕ := 1 + (rest.takeWhile (fun d => d = c)).length
    let tail := specCollapseRuns (rest.dropWhile (fun d => d = c))
    if c = ' ' then ' ' :: tail
    else if c = '\n' then
      (if 3 ≤ run then ['\n', '\n'] else List.replicate run '\n') ++ tail
    else List.replicate run c ++ tail
termination_by s => s.length
decreasing_by
  simp only [List.length_cons]
  exact Nat.lt_succ_of_le (List.dropWhile_sublist _).length_le

/-- The spec's deterministic normalization function: collapse runs as above,
then trim leading and trailing whitespace. -/
def specNormalize (text : PyStr) : PyStr :=
  pyStrip (specCollapseRuns text)

/-- An OCR text block as produced by `OpenAIOCR.extract_text` /
consumed by `Database.insert_text_blocks` (a Python dict). -/
structure Bbox where
  x : ℤ
  y : ℤ
  width : ℤ
  height : ℤ
deriving Repr, DecidableEq

structure TextBlock where
  block_id : PyStr
  frame_id : PyStr
  text : PyStr
  normalized_text : Option PyStr
  confidence : Option ℚ
  bbox : Option Bbox
  block_type : Option PyStr
deriving Repr, DecidableEq

/-- `OpenAIOCR.process_batch`.  `extract_text` is the per-item extraction
(an external network call wrapped in retries); it either returns a list of
text blocks or raises.  `process_batch` appends each item's result in input
order and converts a per-item exception into an empty list. -/
def process_batch (extract_text : PyStr × PyStr → PyResult (List TextBlock))
    (image_paths : List (PyStr × PyStr)) : List (List TextBlock) :=
  image_paths.map (fun item =>
    match extract_text item with
    | .ok blocks => blocks
    | .exn _ => [])

/-! ## database/db.py — compression helpers

`zlib.compress`/`zlib.decompress` are external library calls; they enter the
embedding as an abstract pair of byte-list functions whose interface contract
(`decompress ∘ compress = id`) is a hypothesis where needed.  The
repository-owned part of `_compress_text`/`_decompress_text` is the UTF-8
encoding/decoding around them, which is embedded in full. -/

/-- UTF-8 encoding of a single code point (`str.encode('utf-8')`, one
character). -/
def encodeCp (n : ℕ) : List ℕ :=
  if n < 0x80 then [n]
  else if n < 0x800 then [0xC0 + n / 0x40, 0x80 + n % 0x40]
  else if n < 0x10000 then [0xE0 + n / 0x1000, 0x80 + n / 0x40 % 0x40, 0x80 + n % 0x40]
  else [0xF0 + n / 0x40000, 0x80 + n / 0x1000 % 0x40, 0x80 + n / 0x40 % 0x40, 0x80 + n % 0x40]

/-- `str.encode('utf-8')`. -/
def utf8Encode : PyStr → List ℕ
  | [] => []
  | c :: s => encodeCp c.toNat ++ utf8Encode s

/-- A UTF-8 continuation byte. -/
def isContByte (b : ℕ) : Bool := 0x80 ≤ b ∧ b < 0xC0

/-- Strict UTF-8 decoding, one byte at a time.  The state is `none` when a
lead byte is expected, and `some (acc, k, total)` inside a multi-byte
sequence: `acc` the bits read so far, `k` continuation bytes still missing,
`total` the sequence length (to reject overlong forms at the end).  Lead
bytes `0x80..0xC1` (stray continuation / overlong 2-byte) and `0xF5..0xFF`
are rejected immediately; surrogates, overlong 3- and 4-byte forms and
values beyond U+10FFFF are rejected when the last byte arrives. -/
def utf8DecodeAux : Option (ℕ × ℕ × ℕ) → List ℕ → Option (List ℕ)
  | none, [] => some []
  | some _, [] => none
  | none, b :: rest =>
      if b < 0x80 then (utf8DecodeAux none rest).map (b :: ·)
      else if b < 0xC2 then none
      else if b < 0xE0 then utf8DecodeAux (some (b - 0xC0, 1, 2)) rest
      else if b < 0xF0 then utf8DecodeAux (some (b - 0xE0, 2, 3)) rest
      else if b < 0xF5 then utf8DecodeAux (some (b - 0xF0, 3, 4)) rest
      else none
  | some (acc, k, total), b :: rest =>
      if isContByte b then
        if k = 1 then
          if total = 3 ∧ (acc * 0x40 + (b - 0x80) < 0x800 ∨
              (0xD800 ≤ acc * 0x40 + (b - 0x80) ∧ acc * 0x40 + (b - 0x80) < 0xE000)) then
            none
          else if total = 4 ∧ (acc * 0x40 + (b - 0x80) < 0x10000 ∨
              0x110000 ≤ acc * 0x40 + (b - 0x80)) then
            none
          else (utf8DecodeAux none rest).map ((acc * 0x40 + (b - 0x80)) :: ·)
        else utf8DecodeAux (some (acc * 0x40 + (b - 0x80), k - 1, total)) rest
      else none

/-- Strict UTF-8 decoding to code points (`bytes.decode('utf-8')`, which
raises `UnicodeDecodeError` — here `none` — on malformed input: stray or
missing continuation bytes, overlong forms, surrogates, values beyond
U+10FFFF). -/
def utf8DecodeCp (bytes : List ℕ) : Option (List ℕ) :=
  utf8DecodeAux none bytes

/-- `bytes.decode('utf-8')` producing a string. -/
def utf8Decode (bytes : List ℕ) : Option PyStr :=
  (utf8DecodeCp bytes).map (List.map Char.ofNat)

/-- `Database._compress_text`: UTF-8 encode, then zlib-compress (external). -/
def _compress_text (zlibCompress : List ℕ → List ℕ) (text : PyStr) : List ℕ :=
  zlibCompress (utf8Encode text)

/-- `Database._decompress_text`: zlib-decompress (external), then UTF-8
decode. -/
def _decompress_text (zlibDecompress : List ℕ → List ℕ) (compressed : List ℕ) :
    Option PyStr :=
  utf8Decode (zlibDecompress compressed)

/-! ## database/db.py — rows and operations

The relational store is modelled as in-memory lists of rows; the SQL
statements of db.py become list operations with the same observable
behaviour (keyed lookup, append-on-insert, upsert for window tracking). -/

/-- A row of the `frames` table, equally the metadata dict assembled by
`CaptureService.capture_frame` (the columns `insert_frame` persists). -/
structure FrameMeta where
  frame_id : PyStr
  timestamp : ℤ
  window_title : PyStr
  app_bundle_id : PyStr
  app_name : PyStr
  file_path : PyStr
  file_size_bytes : ℤ
  screen_resolution : PyStr
deriving Repr, DecidableEq

/-- A row of the `text_blocks` table. -/
structure TextBlockRow where
  block_id : PyStr
  frame_id : PyStr
  text : PyStr
  normalized_text : Option PyStr
  text_compressed : Option (List ℕ)
  confidence : Option ℚ
  bbox_x : Option ℤ
  bbox_y : Option ℤ
  bbox_width : Option ℤ
  bbox_height : Option ℤ
  block_type : Option PyStr
deriving Repr, DecidableEq

/-- A row of the `windows` table (keyed by (app_bundle_id, app_name)). -/
structure WindowRow where
  app_bundle_id : PyStr
  app_name : PyStr
  first_seen : ℤ
  last_seen : ℤ
deriving Repr, DecidableEq

/-- The durable relational store. -/
structure DBState where
  frames : List FrameMeta
  text_blocks : List TextBlockRow
  windows : List WindowRow
deriving Repr, DecidableEq

/-- `Database.get_frame`: `SELECT * FROM frames WHERE frame_id = ?`. -/
def Database.get_frame (db : DBState) (frame_id : PyStr) : Option FrameMeta :=
  db.frames.find? (fun f => f.frame_id = frame_id)

/-- `Database.get_text_block`: `SELECT * FROM text_blocks WHERE block_id = ?`. -/
def Database.get_text_block (db : DBState) (block_id : PyStr) : Option TextBlockRow :=
  db.text_blocks.find? (fun b => b.block_id = block_id)

/-- `Database.insert_frame`. -/
def Database.insert_frame (db : DBState) (meta : FrameMeta) : DBState :=
  { db with frames := db.frames ++ [meta] }

/-- The row `Database.insert_text_blocks` builds for one block: the raw text
always goes to the `text` column; `text_compressed` is populated only for
text longer than 500 characters whose zlib compression is strictly smaller
than its UTF-8 encoding. -/
def prepare_text_block_row (zlibCompress : List ℕ → List ℕ) (block : TextBlock) :
    TextBlockRow :=
  let text := block.text
  let text_compressed : Option (List ℕ) :=
    if 500 < text.length then
      let tc := _compress_text zlibCompress text
      if (utf8Encode text).length ≤ tc.length then none else some tc
    else none
  { block_id := block.block_id
    frame_id := block.frame_id
    text := text
    normalized_text := block.normalized_text
    text_compressed := text_compressed
    confidence := block.confidence
    bbox_x := block.bbox.map (fun b => b.x)
    bbox_y := block.bbox.map (fun b => b.y)
    bbox_width := block.bbox.map (fun b => b.width)
    bbox_height := block.bbox.map (fun b => b.height)
    block_type := block.block_type }

/-- `Database.insert_text_blocks`. -/
def Database.insert_text_blocks (zlibCompress : List ℕ → List ℕ) (db : DBState)
    (blocks : List TextBlock) : DBState :=
  { db with text_blocks := db.text_blocks ++ blocks.map (prepare_text_block_row zlibCompress) }

/-- `Database.update_window_tracking`: upsert keyed by
(app_bundle_id, app_name), updating `last_seen` on conflict. -/
def Database.update_window_tracking (db : DBState) (app_bundle_id app_name : PyStr)
    (timestamp : ℤ) : DBState :=
  if db.windows.any (fun w => w.app_bundle_id = app_bundle_id ∧ w.app_name = app_name) then
    { db with windows := db.windows.map (fun w =>
        if w.app_bundle_id = app_bundle_id ∧ w.app_name = app_name then
          { w with last_seen := timestamp }
        else w) }
  else
    { db with windows := db.windows ++
        [{ app_bundle_id := app_bundle_id, app_name := app_name,
           first_seen := timestamp, last_seen := timestamp }] }

/-! ## api/server.py — the search endpoint (semantic branch) -/

/-- One match returned by `EmbeddingService.search`. -/
structure SearchMatch where
  block_id : PyStr
  frame_id : PyStr
  text : PyStr
  distance : Option ℚ
deriving Repr, DecidableEq

/-- One entry of the search endpoint's `results` list. -/
structure SearchResult where
  frame_id : PyStr
  block_id : PyStr
  timestamp : Option ℤ
  window_title : PyStr
  app_name : PyStr
  text : PyStr
  score : Option ℚ
deriving Repr, DecidableEq

def untitledStr : PyStr := ['U', 'n', 't', 'i', 't', 'l', 'e', 'd']

def unknownStr : PyStr := ['U', 'n', 'k', 'n', 'o', 'w', 'n']

/-- Python `x or dflt` for an optional string field read off a possibly
missing row (`frame.get("window_title") or "Untitled"`): `None` and the
empty string are both falsy. -/
def orElseStr (s : Option PyStr) (dflt : PyStr) : PyStr :=
  match s with
  | some t => if t = [] then dflt else t
  | none => dflt

/-- The semantic branch of the `/api/search` handler: for each embedding
match, `frame = db.get_frame(...) or {}` and
`block = db.get_text_block(...) or {}`; a match whose block is missing is
skipped (`if not block: continue`); the frame lookup has no such guard —
missing frame fields fall back to `None`/`"Untitled"`/`"Unknown"`. -/
def semantic_search_results (db : DBState) (hits : List SearchMatch) :
    List SearchResult :=
  hits.filterMap (fun m =>
    let frameOpt := Database.get_frame db m.frame_id
    match Database.get_text_block db m.block_id with
    | none => none
    | some block =>
        some { frame_id := m.frame_id
               block_id := m.block_id
               timestamp := frameOpt.map (fun f => f.timestamp)
               window_title := orElseStr (frameOpt.map (fun f => f.window_title)) untitledStr
               app_name := orElseStr (frameOpt.map (fun f => f.app_name)) unknownStr
               text := block.text
               score := m.distance.map (fun d => 1 - d) })

/-! ## embeddings/embedding_service.py — indexing -/

/-- `EmbeddingService.index_text_blocks` on the vector store contents:
blocks with empty or whitespace-only text are skipped, the rest are added
(embedding + chroma add are external; a raise is the caller's concern). -/
def index_text_blocks (store : List TextBlock) (blocks : List TextBlock) :
    List TextBlock :=
  store ++ blocks.filter (fun b => !(pyStrip b.text).isEmpty)

/-! ## pipeline/processing_pipeline.py -/

/-- Which of the externally-failable calls made for one (frame, OCR-result)
pair raise: the three sqlite statements and the embedding indexing call.
`true` means the call returns normally. -/
structure PairEnv where
  insert_frame_ok : Bool
  insert_blocks_ok : Bool
  index_ok : Bool
  update_tracking_ok : Bool
deriving Repr, DecidableEq

/-- The storage-side state the OCR loop threads through a batch: the
relational store, the vector store, and the pipeline counters. -/
structure StoreState where
  db : DBState
  embedded : List TextBlock
  frames_processed : ℕ
  frames_failed : ℕ
deriving Repr, DecidableEq

/-- The per-pair body of `_ocr_loop`'s storage loop (the inner
`try`/`except`): insert the frame row, insert text blocks when non-empty,
submit them to the embedding index (its exception is caught by the inner
`except` and only logged), update window tracking, and count the frame as
processed; any raising sqlite statement aborts the rest of this pair only
and counts the frame as failed. -/
def store_pair (zlibCompress : List ℕ → List ℕ) (st : StoreState)
    (meta : FrameMeta) (blocks : List TextBlock) (env : PairEnv) : StoreState :=
  if env.insert_frame_ok = false then
    { st with frames_failed := st.frames_failed + 1 }
  else
    let db1 := Database.insert_frame st.db meta
    if blocks.isEmpty then
      if env.update_tracking_ok = false then
        { st with db := db1, frames_failed := st.frames_failed + 1 }
      else
        { st with
            db := Database.update_window_tracking db1 meta.app_bundle_id
                    meta.app_name meta.timestamp
            frames_processed := st.frames_processed + 1 }
    else
      if env.insert_blocks_ok = false then
        { st with db := db1, frames_failed := st.frames_failed + 1 }
      else
        let db2 := Database.insert_text_blocks zlibCompress db1 blocks
        let embedded1 :=
          if env.index_ok then index_text_blocks st.embedded blocks else st.embedded
        if env.update_tracking_ok = false then
          { st with db := db2, embedded := embedded1,
                    frames_failed := st.frames_failed + 1 }
        else
          { st with
              db := Database.update_window_tracking db2 meta.app_bundle_id
                      meta.app_name meta.timestamp
              embedded := embedded1
              frames_processed := st.frames_processed + 1 }

/-- One element of a dispatched batch, as seen by the storage loop:
the frame metadata, the OCR result list for it, and the outcomes of the
external calls made while persisting it. -/
structure BatchItem where
  meta : FrameMeta
  blocks : List TextBlock
  env : PairEnv
deriving Repr, DecidableEq

/-- The storage loop over one batch:
`for (frame_path, metadata), text_blocks in zip(batch, results)`. -/
def store_batch (zlibCompress : List ℕ → List ℕ) (st : StoreState)
    (items : List BatchItem) : StoreState :=
  items.foldl (fun s it => store_pair zlibCompress s it.meta it.blocks it.env) st

/-- `store_pair` leaves the pair marked failed exactly when one of the three
sqlite statements for it raises (the embedding indexing call is not one of
them). -/
def pairFails (item : BatchItem) : Bool :=
  item.env.insert_frame_ok = false ∨
  (!item.blocks.isEmpty ∧ item.env.insert_blocks_ok = false) ∨
  (item.env.insert_frame_ok ∧
   (item.blocks.isEmpty ∨ item.env.insert_blocks_ok) ∧
   item.env.update_tracking_ok = false)

/-- The whole-pipeline state for `ProcessingPipeline`: the running flag, the
FIFO `ocr_queue` of (frame path, metadata) entries, the configured batch
size, the storage-side state, and whether `database.close()` has run. -/
structure PipelineState where
  running : Bool
  ocr_queue : List (PyStr × FrameMeta)
  batch_size : ℕ
  store : StoreState
  db_closed : Bool
deriving Repr, DecidableEq

/-- The draining phase of `_ocr_loop` (entered once `running` is false):
pop up to `batch_size` entries, OCR them via `process_batch`, persist each
pair, and repeat until the queue is empty.  `extract_text` and the per-pair
call outcomes are oracles of the external world.  (With `batch_size = 0`
the Python loop would spin forever without progress; the model returns the
state unchanged in that configuration.) -/
def drain_queue (zlibCompress : List ℕ → List ℕ)
    (extract_text : PyStr × PyStr → PyResult (List TextBlock))
    (penv : PyStr → PairEnv) (st : PipelineState) : PipelineState :=
  if st.ocr_queue.isEmpty then st
  else if st.batch_size = 0 then st
  else
    let batch := st.ocr_queue.take st.batch_size
    let image_paths := batch.map (fun e => (e.1, e.2.frame_id))
    let results := process_batch extract_text image_paths
    let items := (batch.zip results).map
      (fun p => BatchItem.mk p.1.2 p.2 (penv p.1.2.frame_id))
    drain_queue zlibCompress extract_text penv
      { st with ocr_queue := st.ocr_queue.drop st.batch_size,
                store := store_batch zlibCompress st.store items }
termination_by st.ocr_queue.length
decreasing_by
  simp only [List.length_drop]
  rename_i hne hbs
  rw [Bool.not_eq_true] at hne
  simp only [List.isEmpty_eq_false] at hne
  have := List.length_pos.mpr hne
  omega

/-- `ProcessingPipeline.stop`: an early return when not running; otherwise
clear the running flag (the capture loop stops producing), wait for the OCR
loop to drain the queue, then close the database. -/
def ProcessingPipeline.stop (zlibCompress : List ℕ → List ℕ)
    (extract_text : PyStr × PyStr → PyResult (List TextBlock))
    (penv : PyStr → PairEnv) (p : PipelineState) : PipelineState :=
  if p.running = false then p
  else
    let drained := drain_queue zlibCompress extract_text penv { p with running := false }
    { drained with db_closed := true }

/-! ## capture/capture_service.py -/

/-- The frontmost-window info returned by `_get_active_window_info`
(an external Quartz/psutil query with "Unknown" fallbacks; never raises). -/
structure WindowInfo where
  window_title : PyStr
  app_name : PyStr
  app_bundle_id : PyStr
deriving Repr, DecidableEq

/-- State of `CaptureService` relevant to `capture_frame`. -/
structure CaptureService where
  format_webp : Bool
  min_free_space_gb : ℚ
  max_disk_usage_gb : ℚ
  frame_differ : Option FrameDiffer
  frames_captured : ℕ
  frames_skipped : ℕ
  frames_dir_usage_bytes : ℚ
deriving Repr, DecidableEq

/-- The external world as observed during one `capture_frame` call. -/
structure CaptureEnv where
  disk_free_bytes : Option ℚ
  screenshot_exit : PyResult ℤ
  webp_save_ok : Bool
  image_hash : Option (List Bool)
  file_size : ℤ
  metadata_file_size : Option ℤ
  window_info : WindowInfo
  screen_resolution : PyStr
  frame_id : PyStr
  timestamp : ℤ
  frame_path : PyStr
deriving Repr, DecidableEq

/-- Externally visible side effects of one `capture_frame` call, in order:
the `screencapture` subprocess (which writes the PNG), the WebP re-encode,
the temp-PNG delete, the delete of a differ-rejected image, and the sidecar
metadata write. -/
inductive CaptureEvent where
  | invoke_screenshot
  | write_webp
  | delete_temp_png
  | delete_frame_image
  | write_metadata_json
deriving Repr, DecidableEq

/-- `CaptureService._check_disk_space`: `psutil.disk_usage` free space in
GB must reach `min_free_space_gb` and the cached frames-directory usage in
GB must not exceed `max_disk_usage_gb`; a raising probe (`none`) continues
on error with `true`. -/
def _check_disk_space (svc : CaptureService) (disk_free_bytes : Option ℚ) : Bool :=
  match disk_free_bytes with
  | none => true
  | some free =>
    let free_gb := free / 1024 ^ 3
    if free_gb < svc.min_free_space_gb then false
    else
      let total_gb := svc.frames_dir_usage_bytes / 1024 ^ 3
      if svc.max_disk_usage_gb < total_gb then false
      else true

/-- `FrameDiffer.should_capture_frame` including its `except` arm: when
loading/hashing the image raises (`none`), the frame is captured and the
differ state is untouched. -/
def differ_decide (fd : FrameDiffer) (image_hash : Option (List Bool)) :
    Bool × FrameDiffer :=
  match image_hash with
  | none => (true, fd)
  | some h => fd.should_capture_frame h

/-- `CaptureService.capture_frame`: disk-space guard, screenshot, optional
WebP transcode, frame-differ gate, metadata assembly and sidecar write.
Returns the metadata (or `none`), the ordered external side effects, and
the updated service state. -/
def capture_frame (svc : CaptureService) (env : CaptureEnv) :
    Option FrameMeta × List CaptureEvent × CaptureService :=
  if _check_disk_space svc env.disk_free_bytes = false then
    (none, [], svc)
  else
    match env.screenshot_exit with
    | .exn _ => (none, [.invoke_screenshot], svc)
    | .ok code =>
      if code ≠ 0 then (none, [.invoke_screenshot], svc)
      else
        let convEvents : List CaptureEvent :=
          if svc.format_webp then
            if env.webp_save_ok then [.write_webp, .delete_temp_png] else []
          else []
        let events1 : List CaptureEvent := .invoke_screenshot :: convEvents
        let differRun : Bool × Option FrameDiffer :=
          match svc.frame_differ with
          | none => (true, none)
          | some fd =>
              let r := differ_decide fd env.image_hash
              (r.1, some r.2)
        if differRun.1 = false then
          (none, events1 ++ [.delete_frame_image],
           { svc with frame_differ := differRun.2,
                      frames_skipped := svc.frames_skipped + 1 })
        else
          let meta : FrameMeta :=
            { frame_id := env.frame_id
              timestamp := env.timestamp
              window_title := env.window_info.window_title
              app_bundle_id := env.window_info.app_bundle_id
              app_name := env.window_info.app_name
              file_path := env.frame_path
              file_size_bytes := env.file_size
              screen_resolution := env.screen_resolution }
          let usage := svc.frames_dir_usage_bytes + (env.file_size : ℚ) +
            (match env.metadata_file_size with
             | some s => (s : ℚ)
             | none => 0)
          (some meta, events1 ++ [.write_metadata_json],
           { svc with frame_differ := differRun.2,
                      frames_dir_usage_bytes := usage,
                      frames_captured := svc.frames_captured + 1 })

/-! ## Concrete instances used by witnesses and counterexamples -/

/-- All-zero 256-bit hash. -/
def exHashZero : List Bool := List.replicate 256 false

/-- A 256-bit hash differing from `exHashZero` in exactly 5 positions. -/
def exHashFive : List Bool := List.replicate 5 true ++ List.replicate 251 false

/-- A text-block row whose owning frame is absent from `exOrphanDB`. -/
def exBlockRow : TextBlockRow :=
  { block_id := ['b', '1']
    frame_id := ['f', '1']
    text := ['h', 'i']
    normalized_text := none
    text_compressed := none
    confidence := none
    bbox_x := none
    bbox_y := none
    bbox_width := none
    bbox_height := none
    block_type := none }

/-- A store holding `exBlockRow` but no frame row at all. -/
def exOrphanDB : DBState :=
  { frames := [], text_blocks := [exBlockRow], windows := [] }

/-- An embedding match pointing at `exBlockRow` and its (deleted) frame. -/
def exMatch : SearchMatch :=
  { block_id := ['b', '1'], frame_id := ['f', '1'], text := ['h', 'i'],
    distance := some (1/10) }

/-- The result the search endpoint builds for `exMatch` over `exOrphanDB`:
placeholder fields where the frame row should have contributed. -/
def exPlaceholderResult : SearchResult :=
  { frame_id := ['f', '1'], block_id := ['b', '1'], timestamp := none,
    window_title := untitledStr, app_name := unknownStr,
    text := ['h', 'i'], score := some (1 - 1/10) }

/-- Frame metadata used by pipeline witnesses. -/
def exMeta : FrameMeta :=
  { frame_id := ['f'], timestamp := 7, window_title := ['w'],
    app_bundle_id := ['b'], app_name := ['a'], file_path := ['p'],
    file_size_bytes := 3, screen_resolution := ['r'] }

/-- A text block used by pipeline witnesses. -/
def exBlock : TextBlock :=
  { block_id := ['b'], frame_id := ['f'], text := ['x'],
    normalized_text := some ['x'], confidence := some 1, bbox := none,
    block_type := none }

/-- An empty storage state. -/
def exStore : StoreState :=
  { db := { frames := [], text_blocks := [], windows := [] },
    embedded := [], frames_processed := 0, frames_failed := 0 }

/-- A capture service configured with `min_free_space_gb=10`,
`max_disk_usage_gb=100` and an empty frames directory. -/
def exCaptureService : CaptureService :=
  { format_webp := true, min_free_space_gb := 10, max_disk_usage_gb := 100,
    frame_differ := none, frames_captured := 0, frames_skipped := 0,
    frames_dir_usage_bytes := 0 }

/-- An environment whose disk probe reports 5GB free. -/
def exCaptureEnv : CaptureEnv :=
  { disk_free_bytes := some (5 * 1024 ^ 3), screenshot_exit := .ok 0,
    webp_save_ok := true, image_hash := none, file_size := 0,
    metadata_file_size := none, window_info := ⟨[], [], []⟩,
    screen_resolution := [], frame_id := [], timestamp := 0, frame_path := [] }

/-! # Theorems -/

/-- Claim C2: After the first call, `should_capture_frame` with stored hash
`H` and a new hash at Hamming distance `D` returns `false` and leaves the
state's hash at `H` (only `frames_skipped` grows) when the similarity
`1 - D/256` reaches the configured threshold; otherwise it returns `true`
and stores the new hash.  In particular, at threshold `0.95` and `D = 5`
(similarity `251/256 = 0.98046875`) the frame is discarded. -/
theorem frameDiffer_threshold_behaviour (fd : FrameDiffer) (H h : List Bool)
    (D : ℕ) (hlast : fd.last_hash = some H) (hD : hammingDistance h H = D) :
    (fd.similarity_threshold ≤ 1 - (D : ℚ) / 256 →
      fd.should_capture_frame h =
        (false, { fd with frames_skipped := fd.frames_skipped + 1 })) ∧
    (1 - (D : ℚ) / 256 < fd.similarity_threshold →
      fd.should_capture_frame h =
        (true, { fd with last_hash := some h,
                         frames_captured := fd.frames_captured + 1 })) ∧
    (fd.similarity_threshold = 95/100 → D = 5 →
      (fd.should_capture_frame h).1 = false ∧
      (fd.should_capture_frame h).2.last_hash = some H) := by
  simp only [FrameDiffer.should_capture_frame, hlast, hD]
  refine ⟨fun hle => ?_, fun hlt => ?_, fun ht h5 => ?_⟩
  · rw [if_pos hle]
  · rw [if_neg (not_le.mpr hlt)]
  · subst h5
    rw [if_pos (by rw [ht]; norm_num)]
    exact ⟨rfl, rfl⟩

set_option maxRecDepth 8192 in
/-- Witness for C2: threshold `0.95`, stored hash all zeros, new hash at
Hamming distance 5, discarded. -/
theorem frameDiffer_threshold_behaviour_witness :
    ((FrameDiffer.mk (95/100) (some exHashZero) 0 1).should_capture_frame
      exHashFive).1 = false := by
  have h := frameDiffer_threshold_behaviour
    (FrameDiffer.mk (95/100) (some exHashZero) 0 1) exHashZero exHashFive 5
    rfl (by decide)
  exact (h.2.2 rfl rfl).1

/-- Claim C6, counterexample: The claim asserts that a failing idle-time probe
yields the active rate for every configured threshold; with threshold `0`
the code treats the failed probe as an idle reading of `0` seconds, `0 < 0`
fails, and the idle rate is returned instead. -/
theorem activityMonitor_probe_failure_counterexample :
    (ActivityMonitor.mk 0 1 (1/5)).get_adaptive_fps none = 1/5 ∧
    ¬ (ActivityMonitor.mk 0 1 (1/5)).get_adaptive_fps none =
        (ActivityMonitor.mk 0 1 (1/5)).active_fps := by
  constructor
  · rfl
  · intro hEq
    have : (1 : ℚ)/5 = 1 := hEq
    norm_num at this

/-- Claim C6, amended: `get_adaptive_fps` returns the active rate exactly
when the idle reading is strictly below the threshold, and the idle rate
otherwise.  A failing probe is treated as an idle reading of `0` seconds,
so it yields the active rate whenever the configured threshold is
positive. -/
theorem activityMonitor_get_adaptive_fps_spec (m : ActivityMonitor) (r : ℚ) :
    (r < m.idle_threshold → m.get_adaptive_fps (some r) = m.active_fps) ∧
    (m.idle_threshold ≤ r → m.get_adaptive_fps (some r) = m.idle_fps) ∧
    m.get_adaptive_fps none = m.get_adaptive_fps (some 0) ∧
    (0 < m.idle_threshold → m.get_adaptive_fps none = m.active_fps) := by
  refine ⟨fun hlt => ?_, fun hle => ?_, rfl, fun hpos => ?_⟩
  · simp [ActivityMonitor.get_adaptive_fps, ActivityMonitor.is_user_active,
      ActivityMonitor.get_seconds_since_last_input, hlt]
  · have hnlt : ¬ r < m.idle_threshold := not_lt.mpr hle
    simp [ActivityMonitor.get_adaptive_fps, ActivityMonitor.is_user_active,
      ActivityMonitor.get_seconds_since_last_input, hnlt]
  · simp [ActivityMonitor.get_adaptive_fps, ActivityMonitor.is_user_active,
      ActivityMonitor.get_seconds_since_last_input, hpos]

/-- Witness for C6: the spec scenario `idle_threshold=30`, `active_fps=1`,
`idle_fps=0.2`, idle reading `45` seconds gives `0.2`; and a failing probe
with this (positive) threshold gives the active rate. -/
theorem activityMonitor_get_adaptive_fps_spec_witness :
    (ActivityMonitor.mk 30 1 (1/5)).get_adaptive_fps (some 45) = 1/5 ∧
    (ActivityMonitor.mk 30 1 (1/5)).get_adaptive_fps none = 1 := by
  constructor
  · exact (activityMonitor_get_adaptive_fps_spec (ActivityMonitor.mk 30 1 (1/5))
      45).2.1 (by norm_num)
  · exact (activityMonitor_get_adaptive_fps_spec (ActivityMonitor.mk 30 1 (1/5))
      0).2.2.2 (by norm_num)

/-- Claim C5: When the disk-space check fails — free space below
`min_free_space_gb` or cached frames-directory usage above
`max_disk_usage_gb` — `capture_frame` returns `None` with no external side
effects at all: the screenshot primitive is not invoked and no file is
written or deleted, and the service state is unchanged. -/
theorem capture_frame_disk_guard (svc : CaptureService) (env : CaptureEnv)
    (free : ℚ) (hprobe : env.disk_free_bytes = some free)
    (hfail : free / 1024 ^ 3 < svc.min_free_space_gb ∨
             svc.max_disk_usage_gb < svc.frames_dir_usage_bytes / 1024 ^ 3) :
    capture_frame svc env = (none, [], svc) := by
  have hcheck : _check_disk_space svc env.disk_free_bytes = false := by
    rw [hprobe]
    simp only [_check_disk_space]
    rcases hfail with h1 | h2
    · rw [if_pos h1]
    · by_cases h1 : free / 1024 ^ 3 < svc.min_free_space_gb
      · rw [if_pos h1]
      · rw [if_neg h1, if_pos h2]
  unfold capture_frame
  rw [hcheck]
  simp

/-- Witness for C5: `min_free_space_gb=10` and 5GB free makes
`capture_frame` return `None` with an empty effect trace. -/
theorem capture_frame_disk_guard_witness :
    capture_frame exCaptureService exCaptureEnv = (none, [], exCaptureService) :=
  capture_frame_disk_guard exCaptureService exCaptureEnv (5 * 1024 ^ 3) rfl
    (Or.inl (by norm_num [exCaptureService]))

/-- Claim C3: `process_batch` returns exactly one result list per input, in
input order: entry `i` is `extract_text`'s result for input `i` when that
call returns, and `[]` when it raises; a per-item failure never propagates
out of the call. -/
theorem process_batch_contract
    (extract_text : PyStr × PyStr → PyResult (List TextBlock))
    (image_paths : List (PyStr × PyStr)) :
    (process_batch extract_text image_paths).length = image_paths.length ∧
    (∀ i : ℕ, (process_batch extract_text image_paths)[i]? =
      (image_paths[i]?).map (fun item =>
        match extract_text item with
        | .ok blocks => blocks
        | .exn _ => [])) ∧
    (∀ i : ℕ, ∀ item : PyStr × PyStr, ∀ msg : PyStr,
      image_paths[i]? = some item → extract_text item = .exn msg →
      (process_batch extract_text image_paths)[i]? = some []) := by
  refine ⟨List.length_map _ _, fun i => ?_, ?_⟩
  · simp only [process_batch, List.getElem?_map]
  · intro i item msg hget hexn
    simp only [process_batch, List.getElem?_map, hget, Option.map_some', hexn]

/-- Witness for C3: a two-item batch whose second item raises yields
`[blocks, []]`. -/
theorem process_batch_contract_witness :
    (process_batch
        (fun item => if item.2 = ['f'] then .ok [exBlock] else .exn ['e'])
        [(['p'], ['f']), (['q'], ['g'])])[1]? = some [] := by
  have h := (process_batch_contract
      (fun item => if item.2 = ['f'] then .ok [exBlock] else .exn ['e'])
      [(['p'], ['f']), (['q'], ['g'])]).2.2 1 (['q'], ['g']) ['e'] rfl (by decide)
  exact h

/-- Claim C10: `insert_text_blocks` always stores the raw text in the `text`
column; `text_compressed` is populated exactly when the text is longer than
500 characters and its zlib compression is strictly smaller than its UTF-8
encoding (and then holds that compression), and is `NULL` otherwise — so a
reader of the `text` column never needs to decompress. -/
theorem insert_text_blocks_compression_invariant
    (zlibCompress : List ℕ → List ℕ) (db : DBState) (blocks : List TextBlock) :
    (Database.insert_text_blocks zlibCompress db blocks).text_blocks =
      db.text_blocks ++ blocks.map (prepare_text_block_row zlibCompress) ∧
    ∀ b : TextBlock,
      (prepare_text_block_row zlibCompress b).text = b.text ∧
      ((prepare_text_block_row zlibCompress b).text_compressed ≠ none ↔
        500 < b.text.length ∧
          (_compress_text zlibCompress b.text).length <
            (utf8Encode b.text).length) ∧
      ((prepare_text_block_row zlibCompress b).text_compressed = none ∨
       (prepare_text_block_row zlibCompress b).text_compressed =
         some (_compress_text zlibCompress b.text)) := by
  refine ⟨rfl, fun b => ⟨rfl, ?_, ?_⟩⟩
  · simp only [prepare_text_block_row]
    by_cases hlen : 500 < b.text.length
    · rw [if_pos hlen]
      by_cases hsz : (utf8Encode b.text).length ≤
          (_compress_text zlibCompress b.text).length
      · rw [if_pos hsz]
        simp [hlen, hsz, not_lt.mpr hsz]
      · rw [if_neg hsz]
        simp [hlen, not_le.mp hsz]
    · rw [if_neg hlen]
      simp [hlen]
  · simp only [prepare_text_block_row]
    by_cases hlen : 500 < b.text.length
    · rw [if_pos hlen]
      by_cases hsz : (utf8Encode b.text).length ≤
          (_compress_text zlibCompress b.text).length
      · rw [if_pos hsz]; exact Or.inl rfl
      · rw [if_neg hsz]; exact Or.inr rfl
    · rw [if_neg hlen]; exact Or.inl rfl

/-- Claim C1, counterexample: The claim says a semantic search candidate whose
owning frame no longer resolves is silently dropped; but over a store that
holds the text block and not the frame, the candidate is returned anyway,
with placeholder fields (`timestamp = None`, `"Untitled"`, `"Unknown"`).
Only a missing text block drops a candidate. -/
theorem search_semantic_missing_frame_counterexample :
    Database.get_frame exOrphanDB ['f', '1'] = none ∧
    semantic_search_results exOrphanDB [exMatch] = [exPlaceholderResult] := by
  exact ⟨rfl, rfl⟩

/-- Claim C1, amended: In the semantic branch of `/api/search`: a candidate
whose text block does not resolve is silently dropped (never an error); a
candidate whose text block resolves is always returned — when its frame
lookup fails, the result carries placeholder fields (`timestamp = None`,
window title `"Untitled"`, app name `"Unknown"`) instead of being
dropped. -/
theorem search_semantic_results_spec (db : DBState) (hits : List SearchMatch) :
    (semantic_search_results db hits).length =
      (hits.filter (fun m => (Database.get_text_block db m.block_id).isSome)).length ∧
    (∀ r ∈ semantic_search_results db hits,
      (Database.get_text_block db r.block_id).isSome) ∧
    (∀ r ∈ semantic_search_results db hits,
      Database.get_frame db r.frame_id = none →
        r.timestamp = none ∧ r.window_title = untitledStr ∧
        r.app_name = unknownStr) := by
  induction hits with
  | nil => exact ⟨rfl, fun r hr => absurd hr (List.not_mem_nil r), fun r hr =>
      absurd hr (List.not_mem_nil r)⟩
  | cons m rest ih =>
    obtain ⟨ihlen, ihblk, ihfrm⟩ := ih
    cases hblk : Database.get_text_block db m.block_id with
    | none =>
        refine ⟨?_, ?_, ?_⟩
        · simpa [semantic_search_results, List.filterMap_cons, hblk,
            List.filter_cons] using ihlen
        · intro r hr
          apply ihblk
          simpa [semantic_search_results, List.filterMap_cons, hblk] using hr
        · intro r hr
          apply ihfrm
          simpa [semantic_search_results, List.filterMap_cons, hblk] using hr
    | some block =>
        refine ⟨?_, ?_, ?_⟩
        · simpa [semantic_search_results, List.filterMap_cons, hblk,
            List.filter_cons] using ihlen
        · intro r hr
          rw [semantic_search_results, List.filterMap_cons] at hr
          simp only [hblk] at hr
          rcases List.mem_cons.mp hr with hr | hr
          · subst hr
            simp [hblk]
          · exact ihblk r hr
        · intro r hr hfr
          rw [semantic_search_results, List.filterMap_cons] at hr
          simp only [hblk] at hr
          rcases List.mem_cons.mp hr with hr | hr
          · subst hr
            simp only at hfr
            simp [hfr, orElseStr]
          · exact ihfrm r hr hfr

set_option maxRecDepth 8192 in
/-- Witness for the amended C1: over `exOrphanDB` the single candidate's
block resolves, its frame does not, and the returned entry indeed carries
the placeholder fields. -/
theorem search_semantic_results_spec_witness :
    exPlaceholderResult.timestamp = none ∧
    exPlaceholderResult.window_title = untitledStr ∧
    exPlaceholderResult.app_name = unknownStr := by
  have hm : exPlaceholderResult ∈ semantic_search_results exOrphanDB [exMatch] :=
    (List.mem_singleton_self exPlaceholderResult :
      exPlaceholderResult ∈ [exPlaceholderResult])
  have h := (search_semantic_results_spec exOrphanDB [exMatch]).2.2
    exPlaceholderResult hm rfl
  exact h

/-- `update_window_tracking` only touches the `windows` table. -/
theorem update_window_tracking_frames (db : DBState) (b n : PyStr) (ts : ℤ) :
    (Database.update_window_tracking db b n ts).frames = db.frames := by
  unfold Database.update_window_tracking
  split <;> rfl

/-- `update_window_tracking` only touches the `windows` table. -/
theorem update_window_tracking_text_blocks (db : DBState) (b n : PyStr) (ts : ℤ) :
    (Database.update_window_tracking db b n ts).text_blocks = db.text_blocks := by
  unfold Database.update_window_tracking
  split <;> rfl

/-- Effect of persisting a single (frame, OCR-result) pair, split by which
external calls raise: the counters move by exactly one, the frame row lands
iff its insert succeeded, the block rows land iff the frame and block
inserts succeeded, and the vector store grows iff additionally the indexing
call succeeded — an indexing failure alone leaves the pair counted as
processed. -/
theorem store_pair_effects (zc : List ℕ → List ℕ) (st : StoreState)
    (it : BatchItem) :
    (store_pair zc st it.meta it.blocks it.env).frames_failed =
      st.frames_failed + (if pairFails it then 1 else 0) ∧
    (store_pair zc st it.meta it.blocks it.env).frames_processed =
      st.frames_processed + (if pairFails it then 0 else 1) ∧
    (store_pair zc st it.meta it.blocks it.env).db.frames =
      st.db.frames ++ (if it.env.insert_frame_ok then [it.meta] else []) ∧
    (store_pair zc st it.meta it.blocks it.env).db.text_blocks =
      st.db.text_blocks ++
        (if it.env.insert_frame_ok && !it.blocks.isEmpty && it.env.insert_blocks_ok
         then it.blocks.map (prepare_text_block_row zc) else []) ∧
    (store_pair zc st it.meta it.blocks it.env).embedded =
      st.embedded ++
        (if it.env.insert_frame_ok && !it.blocks.isEmpty &&
            it.env.insert_blocks_ok && it.env.index_ok
         then it.blocks.filter (fun b => !(pyStrip b.text).isEmpty) else []) := by
  obtain ⟨meta, blocks, ifo, ibo, ixo, uto⟩ := it
  cases ifo <;> cases ibo <;> cases ixo <;> cases uto <;>
    cases hb : blocks.isEmpty <;>
      simp_all [store_pair, pairFails, Database.insert_frame,
        Database.insert_text_blocks, index_text_blocks,
        update_window_tracking_frames, update_window_tracking_text_blocks]

/-- Claim C4, counterexample: The claim counts an indexing exception as one
failed frame; in the code the embedding-indexing call is wrapped in its own
inner `except`, so a pair whose indexing raises (and whose sqlite writes
succeed) is counted as processed, not failed. -/
theorem pipeline_indexing_exception_counterexample :
    (store_batch (fun bytes => bytes) exStore
        [⟨exMeta, [exBlock], ⟨true, true, false, true⟩⟩]).frames_failed = 0 ∧
    (store_batch (fun bytes => bytes) exStore
        [⟨exMeta, [exBlock], ⟨true, true, false, true⟩⟩]).frames_processed = 1 := by
  exact ⟨rfl, rfl⟩

/-- Claim C4, amended: Failures are caught at the pair boundary and pairs
are independent: over any batch, the failed counter grows by exactly the
number of pairs with a raising sqlite statement, the processed counter by
the number of pairs without one (an indexing exception is caught at an
inner boundary and its pair still counts as processed), and the frame rows,
text-block rows and indexed blocks are exactly the concatenation of each
unaffected pair's own writes — one bad pair never loses the rest of the
batch. -/
theorem store_batch_item_isolation (zc : List ℕ → List ℕ) (st : StoreState)
    (items : List BatchItem) :
    (store_batch zc st items).frames_failed =
      st.frames_failed + (items.filter pairFails).length ∧
    (store_batch zc st items).frames_processed =
      st.frames_processed + (items.filter (fun it => !(pairFails it))).length ∧
    (store_batch zc st items).db.frames =
      st.db.frames ++
        (items.filter (fun it => it.env.insert_frame_ok)).map (fun it => it.meta) ∧
    (store_batch zc st items).db.text_blocks =
      st.db.text_blocks ++
        ((items.filter (fun it => it.env.insert_frame_ok && !it.blocks.isEmpty &&
            it.env.insert_blocks_ok)).map
          (fun it => it.blocks.map (prepare_text_block_row zc))).flatten ∧
    (store_batch zc st items).embedded =
      st.embedded ++
        ((items.filter (fun it => it.env.insert_frame_ok && !it.blocks.isEmpty &&
            it.env.insert_blocks_ok && it.env.index_ok)).map
          (fun it => it.blocks.filter (fun b => !(pyStrip b.text).isEmpty))).flatten := by
  induction items generalizing st with
  | nil => simp [store_batch]
  | cons it rest ih =>
    obtain ⟨h1, h2, h3, h4, h5⟩ := store_pair_effects zc st it
    obtain ⟨g1, g2, g3, g4, g5⟩ := ih (store_pair zc st it.meta it.blocks it.env)
    have hstep : store_batch zc st (it :: rest) =
        store_batch zc (store_pair zc st it.meta it.blocks it.env) rest := rfl
    rw [hstep]
    refine ⟨?_, ?_, ?_, ?_, ?_⟩
    · rw [g1, h1, List.filter_cons]
      cases hf : pairFails it <;>
        simp [hf, Nat.add_assoc, Nat.add_comm, Nat.add_left_comm]
    · rw [g2, h2, List.filter_cons]
      cases hf : pairFails it <;>
        simp [hf, Nat.add_assoc, Nat.add_comm, Nat.add_left_comm]
    · rw [g3, h3, List.filter_cons]
      cases hc : it.env.insert_frame_ok <;> simp [hc]
    · rw [g4, h4, List.filter_cons]
      cases hc : (it.env.insert_frame_ok && !it.blocks.isEmpty &&
          it.env.insert_blocks_ok) <;> simp [hc]
    · rw [g5, h5, List.filter_cons]
      cases hc : (it.env.insert_frame_ok && !it.blocks.isEmpty &&
          it.env.insert_blocks_ok && it.env.index_ok) <;> simp [hc]

/-- Draining the queue never touches the running flag or the closed-storage
flag (stated with an explicit length bound for the induction). -/
theorem drain_queue_flags (zc : List ℕ → List ℕ)
    (extract_text : PyStr × PyStr → PyResult (List TextBlock))
    (penv : PyStr → PairEnv) :
    ∀ (n : ℕ) (st : PipelineState), st.ocr_queue.length ≤ n →
      (drain_queue zc extract_text penv st).running = st.running ∧
      (drain_queue zc extract_text penv st).db_closed = st.db_closed := by
  intro n
  induction n with
  | zero =>
      intro st hst
      have hq0 : st.ocr_queue = [] := List.length_eq_zero.mp (Nat.le_zero.mp hst)
      unfold drain_queue
      simp [hq0]
  | succ n ih =>
      intro st hst
      unfold drain_queue
      by_cases hq : st.ocr_queue.isEmpty = true
      · rw [if_pos hq]
        exact ⟨rfl, rfl⟩
      · rw [if_neg hq]
        by_cases hbs : st.batch_size = 0
        · rw [if_pos hbs]
          exact ⟨rfl, rfl⟩
        · rw [if_neg hbs]
          have hpos : 0 < st.ocr_queue.length := by
            cases hqq : st.ocr_queue with
            | nil => rw [hqq] at hq; simp at hq
            | cons a l => simp [hqq]
          have hlen : (st.ocr_queue.drop st.batch_size).length ≤ n := by
            simp only [List.length_drop]
            omega
          exact ih _ hlen

/-- A `stop()` call on a pipeline that is not running returns immediately,
leaving every part of the state untouched. -/
theorem stop_of_not_running (zc : List ℕ → List ℕ)
    (extract_text : PyStr × PyStr → PyResult (List TextBlock))
    (penv : PyStr → PairEnv) (q : PipelineState) (hq : q.running = false) :
    ProcessingPipeline.stop zc extract_text penv q = q := by
  unfold ProcessingPipeline.stop
  rw [if_pos hq]

/-- After any `stop()` call the pipeline is no longer running. -/
theorem stop_running_false (zc : List ℕ → List ℕ)
    (extract_text : PyStr × PyStr → PyResult (List TextBlock))
    (penv : PyStr → PairEnv) (p : PipelineState) :
    (ProcessingPipeline.stop zc extract_text penv p).running = false := by
  unfold ProcessingPipeline.stop
  by_cases hp : p.running = false
  · rw [if_pos hp]
    exact hp
  · rw [if_neg hp]
    exact (drain_queue_flags zc extract_text penv _ _ le_rfl).1

/-- Claim C8: `stop()` is idempotent: the first call clears the running flag
(and on a running pipeline drains the queue and closes storage); a second
call hits the not-running early return and leaves the whole state —
counters, queue, closed storage — unchanged, processing nothing again and
raising nothing (the model is a total function). -/
theorem pipeline_stop_idempotent (zc : List ℕ → List ℕ)
    (extract_text : PyStr × PyStr → PyResult (List TextBlock))
    (penv : PyStr → PairEnv) (p : PipelineState) :
    ProcessingPipeline.stop zc extract_text penv
        (ProcessingPipeline.stop zc extract_text penv p) =
      ProcessingPipeline.stop zc extract_text penv p ∧
    (ProcessingPipeline.stop zc extract_text penv p).running = false :=
  ⟨stop_of_not_running zc extract_text penv _
      (stop_running_false zc extract_text penv p),
   stop_running_false zc extract_text penv p⟩

/-- Lean's `Char` carries exactly the Unicode scalar values: below the
surrogate range or above it and below `0x110000`. -/
theorem char_scalar_bounds (c : Char) :
    c.toNat < 0xD800 ∨ (0xE000 ≤ c.toNat ∧ c.toNat < 0x110000) := by
  have h := c.valid
  simp only [Char.toNat]
  rcases h with h | ⟨h1, h2⟩
  · exact Or.inl h
  · exact Or.inr ⟨by omega, h2⟩

/-- Decoding the UTF-8 bytes of one valid scalar value in front of any byte
tail yields that scalar in front of the decoded tail. -/
theorem utf8DecodeAux_encodeCp (n : ℕ) (rest : List ℕ)
    (hv : n < 0xD800 ∨ (0xE000 ≤ n ∧ n < 0x110000)) :
    utf8DecodeAux none (encodeCp n ++ rest) =
      (utf8DecodeAux none rest).map (n :: ·) := by
  by_cases h1 : n < 0x80
  · rw [encodeCp, if_pos h1, List.cons_append, List.nil_append, utf8DecodeAux,
      if_pos h1]
  · by_cases h2 : n < 0x800
    · rw [encodeCp, if_neg h1, if_pos h2]
      simp only [List.cons_append, List.nil_append]
      rw [utf8DecodeAux, if_neg (by omega), if_neg (by omega), if_pos (by omega)]
      rw [utf8DecodeAux, if_pos (by simp only [isContByte, decide_eq_true_eq]; omega),
        if_pos rfl]
      rw [show (0xC0 + n / 0x40 - 0xC0) * 0x40 + (0x80 + n % 0x40 - 0x80) = n from
        by omega]
      rw [if_neg (by omega), if_neg (by omega)]
    · by_cases h3 : n < 0x10000
      · rw [encodeCp, if_neg h1, if_neg h2, if_pos h3]
        simp only [List.cons_append, List.nil_append]
        rw [utf8DecodeAux, if_neg (by omega), if_neg (by omega), if_neg (by omega),
          if_pos (by omega)]
        rw [utf8DecodeAux, if_pos (by simp only [isContByte, decide_eq_true_eq]; omega),
          if_neg (by omega)]
        rw [utf8DecodeAux, if_pos (by simp only [isContByte, decide_eq_true_eq]; omega),
          if_pos (by omega)]
        rw [show ((0xE0 + n / 0x1000 - 0xE0) * 0x40 + (0x80 + n / 0x40 % 0x40 - 0x80)) *
            0x40 + (0x80 + n % 0x40 - 0x80) = n from by omega]
        rw [if_neg (by omega), if_neg (by omega)]
      · rw [encodeCp, if_neg h1, if_neg h2, if_neg h3]
        simp only [List.cons_append, List.nil_append]
        rw [utf8DecodeAux, if_neg (by omega), if_neg (by omega), if_neg (by omega),
          if_neg (by omega), if_pos (by omega)]
        rw [utf8DecodeAux, if_pos (by simp only [isContByte, decide_eq_true_eq]; omega),
          if_neg (by omega)]
        rw [utf8DecodeAux, if_pos (by simp only [isContByte, decide_eq_true_eq]; omega),
          if_neg (by omega)]
        rw [utf8DecodeAux, if_pos (by simp only [isContByte, decide_eq_true_eq]; omega),
          if_pos (by omega)]
        rw [show (((0xF0 + n / 0x40000 - 0xF0) * 0x40 + (0x80 + n / 0x1000 % 0x40 - 0x80)) *
            0x40 + (0x80 + n / 0x40 % 0x40 - 0x80)) * 0x40 + (0x80 + n % 0x40 - 0x80) = n
          from by omega]
        rw [if_neg (by omega), if_neg (by omega)]

/-- Decoding the UTF-8 encoding of a string recovers its code points. -/
theorem utf8DecodeCp_utf8Encode (s : PyStr) :
    utf8DecodeCp (utf8Encode s) = some (s.map Char.toNat) := by
  induction s with
  | nil => rfl
  | cons c s ih =>
      show utf8DecodeAux none (encodeCp c.toNat ++ utf8Encode s) = _
      rw [utf8DecodeAux_encodeCp _ _ (char_scalar_bounds c)]
      rw [show utf8DecodeAux none (utf8Encode s) = utf8DecodeCp (utf8Encode s) from rfl,
        ih]
      rfl

/-- UTF-8 round trip on strings. -/
theorem utf8Decode_utf8Encode (s : PyStr) : utf8Decode (utf8Encode s) = some s := by
  rw [utf8Decode, utf8DecodeCp_utf8Encode]
  simp only [Option.map_some', List.map_map]
  congr 1
  conv_rhs => rw [show s = s.map id from (List.map_id s).symm]
  exact List.map_congr_left (fun c _ => Char.ofNat_toNat c)

/-- Claim C7: `_decompress_text` inverts `_compress_text` on every string:
the UTF-8 encoding/decoding pair owned by the repository round-trips (proved
in full above), and the zlib pair is external with the interface contract
`decompress (compress bytes) = bytes`. -/
theorem compress_decompress_roundtrip
    (zlibCompress zlibDecompress : List ℕ → List ℕ)
    (hzlib : ∀ bytes, zlibDecompress (zlibCompress bytes) = bytes)
    (text : PyStr) :
    _decompress_text zlibDecompress (_compress_text zlibCompress text) = some text := by
  rw [_compress_text, _decompress_text, hzlib]
  exact utf8Decode_utf8Encode text

/-- Witness for C7: identity zlib and a concrete string containing a 1-, a
2-, a 3- and a 4-byte character. -/
theorem compress_decompress_roundtrip_witness :
    _decompress_text (fun bytes => bytes)
        (_compress_text (fun bytes => bytes) ['K', 'é', '中', '😀']) =
      some ['K', 'é', '中', '😀'] :=
  compress_decompress_roundtrip (fun bytes => bytes) (fun bytes => bytes)
    (fun _ => rfl) ['K', 'é', '中', '😀']

/-- `collapseSpaces` never changes the first character of a string. -/
theorem collapseSpaces_head? (s : List Char) : (collapseSpaces s).head? = s.head? := by
  cases s with
  | nil => rw [collapseSpaces]
  | cons c rest =>
      by_cases h : c = ' '
      · subst h
        rw [collapseSpaces, if_pos rfl]
        rfl
      · rw [collapseSpaces, if_neg h]
        rfl

theorem head?_dropWhile_ne (p : Char → Bool) :
    ∀ (l : List Char) (x : Char), (l.dropWhile p).head? = some x → p x = false := by
  intro l
  induction l with
  | nil => intro x hx; simp at hx
  | cons a t ih =>
      intro x hx
      by_cases ha : p a
      · rw [List.dropWhile_cons_of_pos ha] at hx
        exact ih x hx
      · rw [List.dropWhile_cons_of_neg ha] at hx
        simp at hx
        subst hx
        simpa using ha

theorem takeWhile_eq_replicate (c : Char) :
    ∀ l : List Char, l.takeWhile (fun d => d = c) =
      List.replicate (l.takeWhile (fun d => d = c)).length c := by
  intro l
  induction l with
  | nil => rfl
  | cons a t ih =>
      by_cases ha : a = c
      · subst ha
        rw [List.takeWhile_cons_of_pos (by simp)]
        simp only [List.length_cons, List.replicate_succ]
        exact congrArg (a :: ·) ih
      · rw [List.takeWhile_cons_of_neg (by simpa using ha)]
        rfl

theorem dropWhile_replicate_append (c : Char) (r : List Char)
    (hr : ∀ x, r.head? = some x → ¬ x = c) :
    ∀ m, (List.replicate m c ++ r).dropWhile (fun d => d = c) = r := by
  intro m
  induction m with
  | zero =>
      simp only [List.replicate, List.nil_append]
      cases r with
      | nil => rfl
      | cons x t =>
          rw [List.dropWhile_cons_of_neg (by simpa using hr x rfl)]
  | succ k ih =>
      rw [List.replicate_succ, List.cons_append,
        List.dropWhile_cons_of_pos (by simp)]
      exact ih

-- collapseSpaces over a run of a non-space char
theorem collapseSpaces_replicate (c : Char) (hc : ¬ c = ' ') (r : List Char) :
    ∀ m, collapseSpaces (List.replicate m c ++ r) =
      List.replicate m c ++ collapseSpaces r := by
  intro m
  induction m with
  | zero => simp
  | succ k ih =>
      rw [List.replicate_succ, List.cons_append, collapseSpaces, if_neg hc, ih]
      rfl

-- collapseNewlines over a run of a non-newline char
theorem collapseNewlines_replicate (c : Char) (hc : ¬ c = '\n') (r : List Char) :
    ∀ m, collapseNewlines (List.replicate m c ++ r) =
      List.replicate m c ++ collapseNewlines r := by
  intro m
  induction m with
  | zero => simp
  | succ k ih =>
      rw [List.replicate_succ, List.cons_append, collapseNewlines,
        if_neg (by intro hand; exact hc hand.1), ih]
      rfl

-- collapseNewlines on a newline run followed by a non-newline head
theorem collapseNewlines_newline_run (Y : List Char)
    (hY : ∀ x, Y.head? = some x → ¬ x = '\n') :
    ∀ m, collapseNewlines ('\n' :: (List.replicate m '\n' ++ Y)) =
      (if m = 0 then ['\n'] else ['\n', '\n']) ++ collapseNewlines Y := by
  intro m
  cases m with
  | zero =>
      simp only [List.replicate, List.nil_append, if_pos rfl]
      rw [collapseNewlines]
      rw [if_neg ?hcond]
      case hcond =>
        intro hand
        rcases hhd : Y.head? with _ | x
        · rw [hhd] at hand; exact Option.noConfusion hand.2
        · rw [hhd] at hand
          exact hY x hhd (Option.some.inj hand.2)
      rfl
  | succ k =>
      simp only [Nat.succ_ne_zero, if_neg, List.replicate_succ, List.cons_append]
      rw [collapseNewlines, if_pos ⟨rfl, rfl⟩]
      rw [show ('\n' :: (List.replicate k '\n' ++ Y)).dropWhile (fun d => d = '\n') =
        (List.replicate (k+1) '\n' ++ Y).dropWhile (fun d => d = '\n') from by
          rw [List.replicate_succ, List.cons_append]]
      rw [dropWhile_replicate_append '\n' Y hY]
      simp

theorem collapse_eq_spec_aux :
    ∀ (n : ℕ) (s : List Char), s.length ≤ n →
      collapseNewlines (collapseSpaces s) = specCollapseRuns s := by
  intro n
  induction n with
  | zero =>
      intro s hs
      have h0 : s = [] := List.length_eq_zero.mp (Nat.le_zero.mp hs)
      subst h0
      rw [collapseSpaces, collapseNewlines, specCollapseRuns]
  | succ n ih =>
      intro s hs
      cases s with
      | nil => rw [collapseSpaces, collapseNewlines, specCollapseRuns]
      | cons c rest =>
        have hlen : (rest.dropWhile (fun d => d = c)).length ≤ n := by
          have h1 := (List.dropWhile_sublist (l := rest) (fun d => d = c)).length_le
          simp only [List.length_cons] at hs
          omega
        have hhd : ∀ x, ((rest.dropWhile (fun d => d = c)).head? = some x) → ¬ x = c := by
          intro x hx
          have h2 := head?_dropWhile_ne (fun d => d = c) rest x hx
          simpa using h2
        have hdec : rest = List.replicate (rest.takeWhile (fun d => d = c)).length c ++
            rest.dropWhile (fun d => d = c) := by
          conv_lhs => rw [← List.takeWhile_append_dropWhile (p := fun d => d = c) (l := rest)]
          rw [← takeWhile_eq_replicate]
        by_cases hsp : c = ' '
        · subst hsp
          rw [collapseSpaces, if_pos rfl, collapseNewlines,
            if_neg (by intro hand; exact absurd hand.1 (by decide))]
          rw [ih _ hlen]
          conv_rhs => rw [specCollapseRuns]
          simp
        · by_cases hnl : c = '\n'
          · subst hnl
            rw [collapseSpaces, if_neg hsp]
            rw [show collapseSpaces rest =
                List.replicate (rest.takeWhile (fun d => d = '\n')).length '\n' ++
                  collapseSpaces (rest.dropWhile (fun d => d = '\n')) from by
              conv_lhs => rw [hdec]
              exact collapseSpaces_replicate '\n' (by decide) _ _]
            rw [collapseNewlines_newline_run _ (by
              intro x hx
              rw [collapseSpaces_head?] at hx
              exact hhd x hx) _]
            rw [ih _ hlen]
            conv_rhs => rw [specCollapseRuns]
            simp only [reduceIte, if_neg (show ¬ ('\n' = ' ') from by decide)]
            rcases hm : (rest.takeWhile (fun d => d = '\n')).length with _ | mm
            · simp
            · rcases mm with _ | k
              · norm_num
                rfl
              · rw [if_neg (by omega), if_pos (by omega)]
          · rw [collapseSpaces, if_neg hsp]
            rw [show collapseSpaces rest =
                List.replicate (rest.takeWhile (fun d => d = c)).length c ++
                  collapseSpaces (rest.dropWhile (fun d => d = c)) from by
              conv_lhs => rw [hdec]
              exact collapseSpaces_replicate c hsp _ _]
            rw [collapseNewlines, if_neg (fun hand => hnl hand.1)]
            rw [collapseNewlines_replicate c hnl _ _, ih _ hlen]
            conv_rhs => rw [specCollapseRuns]
            simp only [reduceIte, if_neg hsp, if_neg hnl]
            rw [Nat.add_comm 1 _, List.replicate_succ]
            simp

/-- Claim C9: The stored normalization equals the spec's deterministic
function: `_normalize_text` collapses every run of spaces to one space,
collapses every run of three or more newline characters (two or more blank
lines) to one blank line while leaving single newlines and single blank
lines untouched, and trims — extensionally equal to the run-by-run
function written from the spec's words. -/
theorem normalize_text_eq_specNormalize (text : PyStr) :
    normalize_text text = specNormalize text := by
  rw [normalize_text, specNormalize, collapse_eq_spec_aux text.length text le_rfl]

end SecondBrain
